import Mathlib

/-!
Verification of the liquidity-pool accounting core
(`programs/liquidity_pool/src/{state.rs, instructions/liquidity.rs,
instructions/swap.rs}`) against its natural-language specification.

Modelling notes.

* All token amounts and share counts are `u64` in the source; 128-bit
  intermediates are `u128`.  We embed both as `Nat` and make the machine
  width explicit exactly where the source does: `checked_*` operations
  followed by `.unwrap()` become explicit side-condition steps that panic
  when the condition fails, and the plain `as u64` narrowing casts become
  `% 2 ^ 64` (Rust `as` truncates silently, independent of any build
  profile).

* Modelled from the spec: the crate's build profile and its `error.rs`
  module are not part of the sources given under `src/`.  The spec (§7)
  states that every unchecked arithmetic overflow is "always fatal, never
  silently saturated or wrapped", so the few *unchecked* native operations
  in the source (`amount_liq0 + amount_liq1` in the bootstrap branch,
  `u128_amount_in - fee_amount` in swap, `total_amount_minted +=
  amount_to_mint`) are modelled as panicking when they leave their domain,
  matching `overflow-checks = true`.  The error names are the ones used at
  the `require!` sites: `NotEnoughBalance` (spec: `InsufficientBalance`),
  `NoPoolMintOutput` (spec: `ZeroMintAmount`), `BurnTooMuch`
  (spec: `BurnExceedsSupply`), `NotEnoughOut` (spec: `SlippageExceeded`).

* Each instruction handler is embedded as the ordered list of the steps it
  performs — balance/guard checks (`require!`), fallible arithmetic,
  emitted CPI fund movements (`token::transfer` / `mint_to` / `burn`) and
  the write to `PoolState.total_amount_minted` — in the order they appear
  in the source.  A generic interpreter `run` executes such a list,
  stopping at the first failed guard or failed arithmetic step, and
  returns the final `total_amount_minted`, the list of fund-movement
  instructions issued so far, and the outcome.
-/

namespace LiquidityPool

/-- One past the largest `u64`, i.e. `2 ^ 64`. -/
def U64 : Nat := 2 ^ 64

/-- One past the largest `u128`, i.e. `2 ^ 128`. -/
def U128 : Nat := 2 ^ 128

/-- The error codes raised by `require!` in the two instruction files
(`crate::error::ErrorCode`).  Spec taxonomy: `InsufficientBalance`,
`ZeroMintAmount`, `BurnExceedsSupply`, `SlippageExceeded` respectively. -/
inductive PoolError
  | NotEnoughBalance
  | NoPoolMintOutput
  | BurnTooMuch
  | NotEnoughOut
  deriving DecidableEq, Repr

/-- The six fund-movement routes the two instruction files use in their
CPI calls. -/
inductive TransferRoute
  | user0ToVault0
  | user1ToVault1
  | vault0ToUser0
  | vault1ToUser1
  | userSrcToVaultSrc
  | vaultDstToUserDst
  deriving DecidableEq, Repr

/-- A fund-movement instruction emitted to the token program. -/
inductive Instr
  | transfer (route : TransferRoute) (amount : Nat)
  | mintTo (amount : Nat)
  | burn (amount : Nat)
  deriving DecidableEq, Repr

/-- One step of an instruction handler:
* `require c e` — a `require!(c, e)` guard: aborts with error `e` when `c`
  is false;
* `arith ok` — a fallible arithmetic step (`checked_*().unwrap()`, or a
  native operation that must stay in its domain): panics when `ok` is
  false;
* `emit i` — a CPI fund movement;
* `setTotal v` — the write to `PoolState.total_amount_minted`. -/
inductive Step
  | require (cond : Bool) (e : PoolError)
  | arith (ok : Bool)
  | emit (i : Instr)
  | setTotal (v : Nat)
  deriving DecidableEq, Repr

/-- Outcome of executing a handler. -/
inductive RunResult
  | ok
  | fail (e : PoolError)
  | panic
  deriving DecidableEq, Repr

/-- Execute a handler's step list: thread `total_amount_minted`, collect
the emitted fund-movement instructions, stop at the first failed guard
(`fail`) or failed arithmetic step (`panic`). -/
def run : List Step → Nat → List Instr → Nat × List Instr × RunResult
  | [], t, is => (t, is, RunResult.ok)
  | Step.require c e :: rest, t, is =>
      if c then run rest t is else (t, is, RunResult.fail e)
  | Step.arith c :: rest, t, is =>
      if c then run rest t is else (t, is, RunResult.panic)
  | Step.emit i :: rest, t, is => run rest t (is ++ [i])
  | Step.setTotal v :: rest, _, is => run rest v is

/-- From `liquidity.rs` line 47 / 55: the amount of token Y deposited.
Bootstrap branch (`vault_balance0 == 0 && vault_balance1 == 0`):
`deposit1 = amount_liq1`.  Steady-state branch:
`deposit1 = amount_liq0 * (vault_balance1 / vault_balance0)` (the
`checked_div` / `checked_mul` side conditions are separate steps). -/
def addDeposit1 (vault0 vault1 amount0 amount1 : Nat) : Nat :=
  if vault0 = 0 ∧ vault1 = 0 then amount1 else amount0 * (vault1 / vault0)

/-- From `liquidity.rs` line 44 / 63–67: the amount of pool token minted.
Bootstrap: `(amount_liq0 + amount_liq1) >> 1`.  Steady state:
`((deposit1 as u128 * total as u128) / vault_balance1 as u128) as u64` —
the final `as u64` is a plain truncating cast, hence `% U64`. -/
def addMint (vault0 vault1 total amount0 amount1 : Nat) : Nat :=
  if vault0 = 0 ∧ vault1 = 0 then (amount0 + amount1) / 2
  else addDeposit1 vault0 vault1 amount0 amount1 * total / vault1 % U64

/-- The handler `add_liquidity` (`liquidity.rs` lines 11–127) as its ordered step
list.  Arguments: the user's two token balances, the two vault balances,
`pool_state.total_amount_minted`, and the two requested amounts. -/
def addLiquiditySteps (bal0 bal1 vault0 vault1 total amount0 amount1 : Nat) :
    List Step :=
  [Step.require (decide (amount0 ≤ bal0)) PoolError.NotEnoughBalance,
   Step.require (decide (amount1 ≤ bal1)) PoolError.NotEnoughBalance]
  ++ (if vault0 = 0 ∧ vault1 = 0 then
        [Step.arith (decide (amount0 + amount1 < U64))]
      else
        [Step.arith (decide (0 < vault0)),
         Step.arith (decide (amount0 * (vault1 / vault0) < U64)),
         Step.require
           (decide (addDeposit1 vault0 vault1 amount0 amount1 ≤ amount1))
           PoolError.NotEnoughBalance,
         Step.arith
           (decide (addDeposit1 vault0 vault1 amount0 amount1 * total < U128)),
         Step.arith (decide (0 < vault1))])
  ++ [Step.require (decide (0 < addMint vault0 vault1 total amount0 amount1))
        PoolError.NoPoolMintOutput,
      Step.emit (Instr.transfer TransferRoute.user0ToVault0 amount0),
      Step.emit (Instr.transfer TransferRoute.user1ToVault1
        (addDeposit1 vault0 vault1 amount0 amount1)),
      Step.arith
        (decide (total + addMint vault0 vault1 total amount0 amount1 < U64)),
      Step.setTotal (total + addMint vault0 vault1 total amount0 amount1),
      Step.emit (Instr.mintTo (addMint vault0 vault1 total amount0 amount1))]

/-- From `liquidity.rs` lines 154–161: token X payout of `remove_liquidity`,
`(burn as u128 * vault0 as u128 / total as u128) as u64`. -/
def removeAmount0 (vault0 total burn : Nat) : Nat := burn * vault0 / total % U64

/-- From `liquidity.rs` lines 154–161: token Y payout of `remove_liquidity`. -/
def removeAmount1 (vault1 total burn : Nat) : Nat := burn * vault1 / total % U64

/-- The handler `remove_liquidity` (`liquidity.rs` lines 129–207) as its ordered step
list.  Arguments: the user's pool-token balance, the two vault balances,
`pool_state.total_amount_minted`, and the burn amount. -/
def removeLiquiditySteps (userPoolBal vault0 vault1 total burn : Nat) :
    List Step :=
  [Step.require (decide (burn ≤ userPoolBal)) PoolError.NotEnoughBalance,
   Step.require (decide (burn ≤ total)) PoolError.BurnTooMuch,
   Step.arith (decide (burn * vault0 < U128)),
   Step.arith (decide (0 < total)),
   Step.arith (decide (burn * vault1 < U128)),
   Step.arith (decide (0 < total)),
   Step.emit (Instr.burn burn),
   Step.setTotal (total - burn),
   Step.emit (Instr.transfer TransferRoute.vault0ToUser0
     (removeAmount0 vault0 total burn)),
   Step.emit (Instr.transfer TransferRoute.vault1ToUser1
     (removeAmount1 vault1 total burn))]

/-- From `swap.rs` lines 29–31: `fee_amount`. -/
def swapFee (feeNum feeDen amountIn : Nat) : Nat := amountIn * feeNum / feeDen

/-- From `swap.rs` lines 34–40: `output_amount` (still in the `u128` domain;
the truncating `as u64` cast happens at the transfer, line 67). -/
def swapOut (vaultSrc vaultDst feeNum feeDen amountIn : Nat) : Nat :=
  vaultDst -
    vaultSrc * vaultDst /
      (vaultSrc + (amountIn - swapFee feeNum feeDen amountIn))

/-- The handler `swap` (`swap.rs` lines 11–70) as its ordered step list.  Arguments:
the user's source-token balance, the two vault balances, the fee schedule
from `PoolState`, `amount_in` and `min_amount_out`. -/
def swapSteps (userSrcBal vaultSrc vaultDst feeNum feeDen amountIn minOut :
    Nat) : List Step :=
  [Step.require (decide (amountIn ≤ userSrcBal)) PoolError.NotEnoughBalance,
   Step.arith (decide (amountIn * feeNum < U128)),
   Step.arith (decide (0 < feeDen)),
   Step.arith (decide (swapFee feeNum feeDen amountIn ≤ amountIn)),
   Step.arith (decide (vaultSrc * vaultDst < U128)),
   Step.arith (decide
     (vaultSrc + (amountIn - swapFee feeNum feeDen amountIn) < U128)),
   Step.arith (decide
     (0 < vaultSrc + (amountIn - swapFee feeNum feeDen amountIn))),
   Step.arith (decide
     (vaultSrc * vaultDst /
        (vaultSrc + (amountIn - swapFee feeNum feeDen amountIn)) ≤ vaultDst)),
   Step.require (decide (minOut ≤ swapOut vaultSrc vaultDst feeNum feeDen
     amountIn)) PoolError.NotEnoughOut,
   Step.emit (Instr.transfer TransferRoute.userSrcToVaultSrc amountIn),
   Step.emit (Instr.transfer TransferRoute.vaultDstToUserDst
     (swapOut vaultSrc vaultDst feeNum feeDen amountIn % U64))]

/-- The swap output exactly as the spec (§4.2) words it: `fee =
floor(amount_in * fee_numerator / fee_denominator)`, `effective_in =
amount_in - fee`, `invariant = reserve_src * reserve_dst`,
`new_reserve_src = reserve_src + effective_in`, `new_reserve_dst =
floor(invariant / new_reserve_src)`, `amount_out = reserve_dst -
new_reserve_dst`.  Written from the spec's words for comparison with the
source-derived `swapSteps`. -/
def swapSpecAmountOut (reserveSrc reserveDst feeNum feeDen amountIn : Nat) :
    Nat :=
  let fee := amountIn * feeNum / feeDen
  let effectiveIn := amountIn - fee
  let inv := reserveSrc * reserveDst
  let newReserveSrc := reserveSrc + effectiveIn
  let newReserveDst := inv / newReserveSrc
  reserveDst - newReserveDst

/-- The C3 statement at one input: `remove_liquidity` fails with
`NotEnoughBalance` exactly when the burn exceeds the user's pool-token
balance; otherwise fails with `BurnTooMuch` exactly when the burn exceeds
`total_amount_minted`; otherwise burns the shares, pays out
`floor(burn * vault_i / total)` of each asset and leaves
`total_amount_minted` decreased by exactly `burn`. -/
def RemoveLiquiditySpec (userPoolBal vault0 vault1 total burn : Nat) : Prop :=
  let r := run (removeLiquiditySteps userPoolBal vault0 vault1 total burn)
    total []
  (r.2.2 = RunResult.fail PoolError.NotEnoughBalance ↔ userPoolBal < burn) ∧
  (burn ≤ userPoolBal →
    (r.2.2 = RunResult.fail PoolError.BurnTooMuch ↔ total < burn)) ∧
  (burn ≤ userPoolBal → burn ≤ total →
    r = (total - burn,
         [Instr.burn burn,
          Instr.transfer TransferRoute.vault0ToUser0 (burn * vault0 / total),
          Instr.transfer TransferRoute.vault1ToUser1 (burn * vault1 / total)],
         RunResult.ok))

/-- The C4 statement at one input: on an empty pool both requested
amounts are deposited in full, `shares_minted = floor((amount0 +
amount1) / 2)`, the call fails with `ZeroMintAmount` exactly when that
value is 0, and otherwise succeeds. -/
def AddLiquidityBootstrapSpec (bal0 bal1 amount0 amount1 : Nat) : Prop :=
  let r := run (addLiquiditySteps bal0 bal1 0 0 0 amount0 amount1) 0 []
  let m := (amount0 + amount1) / 2
  (r.2.2 = RunResult.fail PoolError.NoPoolMintOutput ↔ m = 0) ∧
  (0 < m →
    r = (m, [Instr.transfer TransferRoute.user0ToVault0 amount0,
             Instr.transfer TransferRoute.user1ToVault1 amount1,
             Instr.mintTo m], RunResult.ok))

/-- The C2 statement at one input: on a non-empty pool, `deposit0 =
amount0`, `deposit1 = amount0 * floor(vault1 / vault0)`; the call fails
with `NotEnoughBalance` exactly when `deposit1 > amount1`; otherwise
`shares_minted = floor(deposit1 * total / vault1)` and the call fails with
`NoPoolMintOutput` exactly when that is 0; a successful call emits the two
deposits, mints the shares and adds them to `total_amount_minted`. -/
def AddLiquiditySteadySpec
    (bal0 bal1 vault0 vault1 total amount0 amount1 : Nat) : Prop :=
  let r := run (addLiquiditySteps bal0 bal1 vault0 vault1 total amount0
    amount1) total []
  let d1 := amount0 * (vault1 / vault0)
  let m := d1 * total / vault1
  (r.2.2 = RunResult.fail PoolError.NotEnoughBalance ↔ amount1 < d1) ∧
  (d1 ≤ amount1 →
    (r.2.2 = RunResult.fail PoolError.NoPoolMintOutput ↔ m = 0)) ∧
  (d1 ≤ amount1 → 0 < m → total + m < U64 →
    r = (total + m,
         [Instr.transfer TransferRoute.user0ToVault0 amount0,
          Instr.transfer TransferRoute.user1ToVault1 d1,
          Instr.mintTo m], RunResult.ok))

/-- The C8 statement at one input: on the post-add pool (reserves grown by
the two deposits, share supply grown by the minted shares, user holding
exactly the minted shares), `remove_liquidity` of exactly the minted
shares succeeds and pays out at most `deposit0 = amount0` of asset 0 and
at most `deposit1` of asset 1. -/
def AddThenRemoveSpec (vault0 vault1 total amount0 amount1 : Nat) : Prop :=
  let d1 := addDeposit1 vault0 vault1 amount0 amount1
  let m := addMint vault0 vault1 total amount0 amount1
  run (removeLiquiditySteps m (vault0 + amount0) (vault1 + d1) (total + m) m)
      (total + m) [] =
    (total,
     [Instr.burn m,
      Instr.transfer TransferRoute.vault0ToUser0
        (m * (vault0 + amount0) / (total + m)),
      Instr.transfer TransferRoute.vault1ToUser1
        (m * (vault1 + d1) / (total + m))], RunResult.ok) ∧
  m * (vault0 + amount0) / (total + m) ≤ amount0 ∧
  m * (vault1 + d1) / (total + m) ≤ d1

/-- No `require!` guard occurs anywhere in the step list. -/
def noRequire : List Step → Bool
  | [] => true
  | Step.require _ _ :: _ => false
  | Step.arith _ :: rest => noRequire rest
  | Step.emit _ :: rest => noRequire rest
  | Step.setTotal _ :: rest => noRequire rest

/-- Every `require!` guard occurs before the first emitted instruction or
state write. -/
def checksBeforeEffects : List Step → Bool
  | [] => true
  | Step.require _ _ :: rest => checksBeforeEffects rest
  | Step.arith _ :: rest => checksBeforeEffects rest
  | Step.emit _ :: rest => noRequire rest
  | Step.setTotal _ :: rest => noRequire rest

theorem run_not_fail_of_noRequire (steps : List Step) :
    ∀ t acc t' is e, noRequire steps = true →
      run steps t acc = (t', is, RunResult.fail e) → False := by
  induction steps with
  | nil => intro t acc t' is e _ h; simp [run] at h
  | cons s rest ih =>
    intro t acc t' is e hnr h
    cases s with
    | require c e₀ => simp [noRequire] at hnr
    | arith c =>
      cases c
      · simp [run] at h
      · simp only [noRequire] at hnr
        simp only [run, if_pos rfl] at h
        exact ih t acc t' is e hnr h
    | emit i =>
      simp only [noRequire] at hnr
      simp only [run] at h
      exact ih t (acc ++ [i]) t' is e hnr h
    | setTotal v =>
      simp only [noRequire] at hnr
      simp only [run] at h
      exact ih v acc t' is e hnr h

theorem run_fail_unchanged (steps : List Step) :
    ∀ t acc t' is e, checksBeforeEffects steps = true →
      run steps t acc = (t', is, RunResult.fail e) → is = acc ∧ t' = t := by
  induction steps with
  | nil => intro t acc t' is e _ h; simp [run] at h
  | cons s rest ih =>
    intro t acc t' is e hce h
    cases s with
    | require c e₀ =>
      simp only [checksBeforeEffects] at hce
      cases c
      · simp [run] at h
        exact ⟨h.2.1.symm, h.1.symm⟩
      · simp only [run, if_pos rfl] at h
        exact ih t acc t' is e hce h
    | arith c =>
      simp only [checksBeforeEffects] at hce
      cases c
      · simp [run] at h
      · simp only [run, if_pos rfl] at h
        exact ih t acc t' is e hce h
    | emit i =>
      simp only [checksBeforeEffects] at hce
      simp only [run] at h
      exact (run_not_fail_of_noRequire rest t (acc ++ [i]) t' is e hce h).elim
    | setTotal v =>
      simp only [checksBeforeEffects] at hce
      simp only [run] at h
      exact (run_not_fail_of_noRequire rest v acc t' is e hce h).elim

theorem addLiquiditySteps_checksBeforeEffects
    (bal0 bal1 vault0 vault1 total amount0 amount1 : Nat) :
    checksBeforeEffects
      (addLiquiditySteps bal0 bal1 vault0 vault1 total amount0 amount1) =
      true := by
  by_cases h : vault0 = 0 ∧ vault1 = 0 <;>
    simp [addLiquiditySteps, h, checksBeforeEffects, noRequire]

theorem removeLiquiditySteps_checksBeforeEffects
    (userPoolBal vault0 vault1 total burn : Nat) :
    checksBeforeEffects
      (removeLiquiditySteps userPoolBal vault0 vault1 total burn) = true := by
  simp [removeLiquiditySteps, checksBeforeEffects, noRequire]

theorem swapSteps_checksBeforeEffects
    (userSrcBal vaultSrc vaultDst feeNum feeDen amountIn minOut : Nat) :
    checksBeforeEffects
      (swapSteps userSrcBal vaultSrc vaultDst feeNum feeDen amountIn minOut) =
      true := by
  simp [swapSteps, checksBeforeEffects, noRequire]

example :
    run (swapSteps 100 1000 2000 3 1000 100 0) 7 [] =
      (7, [Instr.transfer TransferRoute.userSrcToVaultSrc 100,
           Instr.transfer TransferRoute.vaultDstToUserDst 182],
        RunResult.ok) := by decide

example :
    run (addLiquiditySteps 1000 2000 0 0 0 1000 2000) 0 [] =
      (1500, [Instr.transfer TransferRoute.user0ToVault0 1000,
              Instr.transfer TransferRoute.user1ToVault1 2000,
              Instr.mintTo 1500], RunResult.ok) := by decide

example :
    run (addLiquiditySteps 100 1000 1000 2000 1500 100 1000) 1500 [] =
      (1650, [Instr.transfer TransferRoute.user0ToVault0 100,
              Instr.transfer TransferRoute.user1ToVault1 200,
              Instr.mintTo 150], RunResult.ok) := by decide

example :
    run (removeLiquiditySteps 150 1100 2200 1650 150) 1650 [] =
      (1500, [Instr.burn 150,
              Instr.transfer TransferRoute.vault0ToUser0 100,
              Instr.transfer TransferRoute.vault1ToUser1 200],
        RunResult.ok) := by decide

/-- C7: for every `add_liquidity`, `remove_liquidity` or `swap` call that
returns one of the taxonomy errors, the error is detected before any state
mutation or fund-movement instruction: the run ends with no instruction
emitted and `total_amount_minted` unchanged. -/
theorem errors_before_effects :
    (∀ bal0 bal1 vault0 vault1 total amount0 amount1 t is e,
      run (addLiquiditySteps bal0 bal1 vault0 vault1 total amount0 amount1)
          total [] = (t, is, RunResult.fail e) → is = [] ∧ t = total) ∧
    (∀ userPoolBal vault0 vault1 total burn t is e,
      run (removeLiquiditySteps userPoolBal vault0 vault1 total burn)
          total [] = (t, is, RunResult.fail e) → is = [] ∧ t = total) ∧
    (∀ userSrcBal vaultSrc vaultDst feeNum feeDen amountIn minOut total t is e,
      run (swapSteps userSrcBal vaultSrc vaultDst feeNum feeDen amountIn
          minOut) total [] = (t, is, RunResult.fail e) → is = [] ∧ t = total) := by
  refine ⟨fun bal0 bal1 v0 v1 total a0 a1 t is e h => ?_,
          fun uB v0 v1 total burn t is e h => ?_,
          fun uB sV dV fn fd aIn mo total t is e h => ?_⟩
  · exact run_fail_unchanged _ total [] t is e
      (addLiquiditySteps_checksBeforeEffects bal0 bal1 v0 v1 total a0 a1) h
  · exact run_fail_unchanged _ total [] t is e
      (removeLiquiditySteps_checksBeforeEffects uB v0 v1 total burn) h
  · exact run_fail_unchanged _ total [] t is e
      (swapSteps_checksBeforeEffects uB sV dV fn fd aIn mo) h

theorem errors_before_effects_witness : ([] : List Instr) = [] ∧ (5 : Nat) = 5 :=
  errors_before_effects.1 0 0 1 1 5 1 0 5 [] PoolError.NotEnoughBalance
    (by decide)

/-- C10: with `total_amount_minted = 0` and `burn_amount = 0`, both guards
of `remove_liquidity` pass (`0 ≤ userPoolBal` and `0 ≤ 0`) and the payout
computation divides by `total_amount_minted = 0`: `checked_div(0)` returns
`None` and the `unwrap` panics instead of returning a taxonomy error. -/
theorem remove_liquidity_zero_total_panics (userPoolBal vault0 vault1 : Nat) :
    run (removeLiquiditySteps userPoolBal vault0 vault1 0 0) 0 [] =
      (0, [], RunResult.panic) := by
  simp [removeLiquiditySteps, run, U128]

/-- C9 counterexample: with `vault0 = 0`, `vault1 = 1` (one reserve zero,
the other not) the steady-state branch is taken and `add_liquidity` panics
on the rate division `vault1.checked_div(vault0).unwrap()`, refuting the
claim that the division-by-zero branch is unreachable. -/
theorem add_liquidity_rate_division_cex :
    run (addLiquiditySteps 2 2 0 1 0 1 1) 0 [] = (0, [], RunResult.panic) := by
  decide

/-- C9 (amended): the bootstrap branch is selected exactly by
`vault0 == 0 && vault1 == 0`, so the rate division is reached whenever at
least one reserve is nonzero; in particular, whenever `reserve0 = 0` and
`reserve1 > 0` (and the entry balance checks pass), `add_liquidity`
reaches `reserve1 / reserve0` and panics on the division by zero. -/
theorem add_liquidity_rate_division_panics
    (bal0 bal1 vault1 total amount0 amount1 : Nat)
    (h0 : amount0 ≤ bal0) (h1 : amount1 ≤ bal1) (hv : 0 < vault1) :
    run (addLiquiditySteps bal0 bal1 0 vault1 total amount0 amount1) total []
      = (total, [], RunResult.panic) := by
  simp [addLiquiditySteps, run, Nat.pos_iff_ne_zero.mp hv, h0, h1]

theorem add_liquidity_rate_division_panics_witness :
    run (addLiquiditySteps 1 1 0 1 0 1 1) 0 [] = (0, [], RunResult.panic) :=
  add_liquidity_rate_division_panics 1 1 1 0 1 1 (by decide) (by decide)
    (by decide)

/-- C6: the narrowing cast back to 64 bits does not raise an error — it
silently truncates.  With `vault0 = vault1 = 1`, `total_amount_minted =
3`, `amount0 = amount1 = 2^63`, the exact 128-bit share quotient is
`3 * 2^63` (does not fit in `u64`), yet the call succeeds and silently
mints `(3 * 2^63) mod 2^64 = 2^63` shares. -/
theorem add_liquidity_mint_narrowing_truncates :
    run (addLiquiditySteps (2 ^ 63) (2 ^ 63) 1 1 3 (2 ^ 63) (2 ^ 63)) 3 [] =
      (3 + 2 ^ 63,
       [Instr.transfer TransferRoute.user0ToVault0 (2 ^ 63),
        Instr.transfer TransferRoute.user1ToVault1 (2 ^ 63),
        Instr.mintTo (2 ^ 63)], RunResult.ok) ∧
    addDeposit1 1 1 (2 ^ 63) (2 ^ 63) * 3 / 1 = 3 * 2 ^ 63 ∧
    addMint 1 1 3 (2 ^ 63) (2 ^ 63) = 2 ^ 63 := by
  decide

/-- C5 counterexample: at the spec's own swap example (`reserve_src =
1000`, `reserve_dst = 2000`, fee `3/1000 > 0`, `amount_in = 100`,
`amount_out = 182`) the post-trade reserve product `1100 * 1818 =
1999800` is strictly below the pre-trade product `2000000`, refuting both
the `fee_numerator > 0` monotonicity and the 1-unit zero-fee bound. -/
theorem swap_invariant_monotonicity_cex :
    run (swapSteps 100 1000 2000 3 1000 100 0) 0 [] =
      (0, [Instr.transfer TransferRoute.userSrcToVaultSrc 100,
           Instr.transfer TransferRoute.vaultDstToUserDst 182],
        RunResult.ok) ∧
    0 < 3 ∧ (1000 + 100) * (2000 - 182) < 1000 * 2000 := by
  decide

/-- C2 counterexample: on the non-empty pool `vault0 = 1, vault1 = 0`
(total shares 5), requesting `add_liquidity(1, 0)` gives `deposit1 = 0 ≤
amount1`, so per the claim the call should fail with `ZeroMintAmount`
(the share quotient is 0); instead the mint computation divides by
`vault1 = 0` and panics. -/
theorem add_liquidity_steady_cex :
    run (addLiquiditySteps 1 0 1 0 5 1 0) 5 [] = (5, [], RunResult.panic) ∧
    addDeposit1 1 0 1 0 ≤ 0 ∧ addDeposit1 1 0 1 0 * 5 / 0 = 0 := by
  decide

/-- C3 counterexample: with `total_amount_minted = 0` and `shares_to_burn
= 0` both guards of the claim are satisfied (`0 ≤` user balance `0`,
`0 ≤ total`), so the claim says the call returns the floor payouts;
instead it panics on the division by `total_amount_minted = 0`. -/
theorem remove_liquidity_cex :
    run (removeLiquiditySteps 0 5 7 0 0) 0 [] = (0, [], RunResult.panic) := by
  decide

/-- C4 counterexample: on an empty pool with `amount0 = amount1 = 2^63`
(user balances sufficient), the claim demands `shares_minted = floor((2^63
+ 2^63)/2) = 2^63 > 0` and success; the unchecked 64-bit sum `amount_liq0
+ amount_liq1` leaves the `u64` domain and the call aborts instead. -/
theorem add_liquidity_bootstrap_cex :
    run (addLiquiditySteps (2 ^ 63) (2 ^ 63) 0 0 0 (2 ^ 63) (2 ^ 63)) 0 [] =
      (0, [], RunResult.panic) ∧ 0 < (2 ^ 63 + 2 ^ 63) / 2 := by
  decide

theorem u64_mul_lt_u128 {a b : Nat} (ha : a < U64) (hb : b < U64) :
    a * b < U128 := by
  have h : a * b < U64 * U64 :=
    mul_lt_mul'' ha hb (Nat.zero_le _) (Nat.zero_le _)
  have h2 : U64 * U64 = U128 := by norm_num [U64, U128]
  omega

theorem payout_le {burn vault total : Nat} (ht : 0 < total)
    (h : burn ≤ total) : burn * vault / total ≤ vault := by
  have h' : burn * vault ≤ total * vault := Nat.mul_le_mul_right vault h
  calc burn * vault / total ≤ total * vault / total := Nat.div_le_div_right h'
  _ = vault := Nat.mul_div_cancel_left vault ht

/-- Evaluation of a `remove_liquidity` run on which every guard passes
and no arithmetic step fails. -/
theorem removeLiquidity_run_ok (userPoolBal vault0 vault1 total burn : Nat)
    (hv0 : vault0 < U64) (hv1 : vault1 < U64) (hb : burn < U64)
    (ht : 0 < total) (h1 : burn ≤ userPoolBal) (h2 : burn ≤ total) :
    run (removeLiquiditySteps userPoolBal vault0 vault1 total burn) total [] =
      (total - burn,
       [Instr.burn burn,
        Instr.transfer TransferRoute.vault0ToUser0 (burn * vault0 / total),
        Instr.transfer TransferRoute.vault1ToUser1 (burn * vault1 / total)],
       RunResult.ok) := by
  have hm0 : burn * vault0 < U128 := u64_mul_lt_u128 hb hv0
  have hm1 : burn * vault1 < U128 := u64_mul_lt_u128 hb hv1
  have hmod0 : burn * vault0 / total % U64 = burn * vault0 / total :=
    Nat.mod_eq_of_lt (lt_of_le_of_lt (payout_le ht h2) hv0)
  have hmod1 : burn * vault1 / total % U64 = burn * vault1 / total :=
    Nat.mod_eq_of_lt (lt_of_le_of_lt (payout_le ht h2) hv1)
  simp [removeLiquiditySteps, run, removeAmount0, removeAmount1,
    h1, h2, hm0, hm1, ht, hmod0, hmod1]

/-- C3 (amended): the claim, additionally assuming `total_amount_minted >
0` (with `total = 0` and `burn = 0` both guards pass and the payout
division panics — see the counterexample). -/
theorem remove_liquidity_spec (userPoolBal vault0 vault1 total burn : Nat)
    (hv0 : vault0 < U64) (hv1 : vault1 < U64) (hb : burn < U64)
    (ht : 0 < total) :
    RemoveLiquiditySpec userPoolBal vault0 vault1 total burn := by
  have hm0 : burn * vault0 < U128 := u64_mul_lt_u128 hb hv0
  have hm1 : burn * vault1 < U128 := u64_mul_lt_u128 hb hv1
  unfold RemoveLiquiditySpec
  by_cases h1 : burn ≤ userPoolBal
  · by_cases h2 : burn ≤ total
    · have hr := removeLiquidity_run_ok userPoolBal vault0 vault1 total burn
        hv0 hv1 hb ht h1 h2
      refine ⟨?_, ?_, ?_⟩ <;> simp [hr] <;> omega
    · have hr : run (removeLiquiditySteps userPoolBal vault0 vault1 total burn)
          total [] = (total, [], RunResult.fail PoolError.BurnTooMuch) := by
        simp [removeLiquiditySteps, run, h1, h2]
      refine ⟨?_, ?_, ?_⟩ <;> simp [hr] <;> omega
  · have hr : run (removeLiquiditySteps userPoolBal vault0 vault1 total burn)
        total [] = (total, [], RunResult.fail PoolError.NotEnoughBalance) := by
      simp [removeLiquiditySteps, run, h1]
    refine ⟨?_, ?_, ?_⟩ <;> simp [hr] <;> omega

theorem remove_liquidity_spec_witness : RemoveLiquiditySpec 150 1100 2200 1650 150 :=
  remove_liquidity_spec 150 1100 2200 1650 150 (by decide) (by decide)
    (by decide) (by decide)

/-- C4 (amended): the claim, on an empty pool with `total_amount_minted =
0`, additionally assuming the native 64-bit sum `amount0 + amount1` does
not overflow (the source adds the two `u64` amounts without a widened
intermediate — see the counterexample). -/
theorem add_liquidity_bootstrap_spec (bal0 bal1 amount0 amount1 : Nat)
    (h0 : amount0 ≤ bal0) (h1 : amount1 ≤ bal1)
    (hsum : amount0 + amount1 < U64) :
    AddLiquidityBootstrapSpec bal0 bal1 amount0 amount1 := by
  unfold AddLiquidityBootstrapSpec
  have hmlt : (amount0 + amount1) / 2 < U64 :=
    lt_of_le_of_lt (Nat.div_le_self _ _) hsum
  by_cases hm : (amount0 + amount1) / 2 = 0
  · have hr : run (addLiquiditySteps bal0 bal1 0 0 0 amount0 amount1) 0 [] =
        (0, [], RunResult.fail PoolError.NoPoolMintOutput) := by
      simp [addLiquiditySteps, run, addMint, addDeposit1, h0, h1, hsum, hm]
    refine ⟨?_, ?_⟩ <;> simp [hr] <;> omega
  · have hr : run (addLiquiditySteps bal0 bal1 0 0 0 amount0 amount1) 0 [] =
        ((amount0 + amount1) / 2,
         [Instr.transfer TransferRoute.user0ToVault0 amount0,
          Instr.transfer TransferRoute.user1ToVault1 amount1,
          Instr.mintTo ((amount0 + amount1) / 2)], RunResult.ok) := by
      simp [addLiquiditySteps, run, addMint, addDeposit1, h0, h1, hsum,
        Nat.pos_of_ne_zero hm, hmlt]
    refine ⟨?_, ?_⟩ <;> simp [hr]
    omega

theorem add_liquidity_bootstrap_spec_witness :
    AddLiquidityBootstrapSpec 1000 2000 1000 2000 :=
  add_liquidity_bootstrap_spec 1000 2000 1000 2000 (by decide) (by decide)
    (by decide)

/-- C2 (amended): the claim, additionally assuming both reserves are
positive (with exactly one reserve zero the call panics — see the
counterexample and the C9 theorems), that `deposit1` fits in `u64`
(otherwise `checked_mul(...).unwrap()` panics), that the 128-bit share
quotient fits in `u64` (otherwise the plain `as u64` cast truncates it —
see the C6 theorem), and, for the success case, that the new share total
fits in `u64`. -/
theorem add_liquidity_steady_spec
    (bal0 bal1 vault0 vault1 total amount0 amount1 : Nat)
    (hT : total < U64) (h0 : amount0 ≤ bal0) (h1 : amount1 ≤ bal1)
    (hv0 : 0 < vault0) (hv1 : 0 < vault1)
    (hd1 : amount0 * (vault1 / vault0) < U64)
    (hq : amount0 * (vault1 / vault0) * total / vault1 < U64) :
    AddLiquiditySteadySpec bal0 bal1 vault0 vault1 total amount0 amount1 := by
  unfold AddLiquiditySteadySpec
  have hne : ¬(vault0 = 0 ∧ vault1 = 0) := fun hc =>
    absurd hc.1 (Nat.pos_iff_ne_zero.mp hv0)
  have hdd : addDeposit1 vault0 vault1 amount0 amount1 =
      amount0 * (vault1 / vault0) := by simp [addDeposit1, hne]
  have hmm : addMint vault0 vault1 total amount0 amount1 =
      amount0 * (vault1 / vault0) * total / vault1 := by
    simp [addMint, hne, hdd, Nat.mod_eq_of_lt hq]
  have hmul : amount0 * (vault1 / vault0) * total < U128 :=
    u64_mul_lt_u128 hd1 hT
  by_cases h2 : amount0 * (vault1 / vault0) ≤ amount1
  · by_cases h3 : amount0 * (vault1 / vault0) * total / vault1 = 0
    · have hr : run (addLiquiditySteps bal0 bal1 vault0 vault1 total amount0
          amount1) total [] =
          (total, [], RunResult.fail PoolError.NoPoolMintOutput) := by
        simp [addLiquiditySteps, run, hdd, hmm, hne, h0, h1, h2, h3, hv0,
          hv1, hd1, hmul]
      refine ⟨?_, ?_, ?_⟩ <;> simp [hr] <;> omega
    · by_cases h4 : total + amount0 * (vault1 / vault0) * total / vault1 < U64
      · have hr : run (addLiquiditySteps bal0 bal1 vault0 vault1 total
            amount0 amount1) total [] =
            (total + amount0 * (vault1 / vault0) * total / vault1,
             [Instr.transfer TransferRoute.user0ToVault0 amount0,
              Instr.transfer TransferRoute.user1ToVault1
                (amount0 * (vault1 / vault0)),
              Instr.mintTo (amount0 * (vault1 / vault0) * total / vault1)],
             RunResult.ok) := by
          simp [addLiquiditySteps, run, hdd, hmm, hne, h0, h1, h2,
            Nat.pos_of_ne_zero h3, h4, hv0, hv1, hd1, hmul]
        refine ⟨?_, ?_, ?_⟩ <;> simp [hr] <;> omega
      · have hr : run (addLiquiditySteps bal0 bal1 vault0 vault1 total
            amount0 amount1) total [] =
            (total,
             [Instr.transfer TransferRoute.user0ToVault0 amount0,
              Instr.transfer TransferRoute.user1ToVault1
                (amount0 * (vault1 / vault0))], RunResult.panic) := by
          simp [addLiquiditySteps, run, hdd, hmm, hne, h0, h1, h2,
            Nat.pos_of_ne_zero h3, h4, hv0, hv1, hd1, hmul]
        refine ⟨?_, ?_, ?_⟩ <;> simp [hr] <;> omega
  · have hr : run (addLiquiditySteps bal0 bal1 vault0 vault1 total amount0
        amount1) total [] =
        (total, [], RunResult.fail PoolError.NotEnoughBalance) := by
      simp [addLiquiditySteps, run, hdd, hmm, hne, h0, h1, h2, hv0, hv1,
        hd1, hmul]
    refine ⟨?_, ?_, ?_⟩ <;> simp [hr] <;> omega

theorem add_liquidity_steady_spec_witness :
    AddLiquiditySteadySpec 100 1000 1000 2000 1500 100 1000 :=
  add_liquidity_steady_spec 100 1000 1000 2000 1500 100 1000 (by decide)
    (by decide) (by decide) (by decide) (by decide) (by decide) (by decide)

/-- Inversion of a successful `swap` run: `total_amount_minted` is
untouched, the two transfers are `amount_in` in and the (narrowed)
`output_amount` out, and every side condition along the way held. -/
theorem swapSteps_ok_inversion
    (userSrcBal vaultSrc vaultDst feeNum feeDen amountIn minOut T t : Nat)
    (is : List Instr)
    (h : run (swapSteps userSrcBal vaultSrc vaultDst feeNum feeDen amountIn
      minOut) T [] = (t, is, RunResult.ok)) :
    t = T ∧
    is = [Instr.transfer TransferRoute.userSrcToVaultSrc amountIn,
          Instr.transfer TransferRoute.vaultDstToUserDst
            (swapOut vaultSrc vaultDst feeNum feeDen amountIn % U64)] ∧
    swapFee feeNum feeDen amountIn ≤ amountIn ∧
    0 < vaultSrc + (amountIn - swapFee feeNum feeDen amountIn) ∧
    vaultSrc * vaultDst /
      (vaultSrc + (amountIn - swapFee feeNum feeDen amountIn)) ≤ vaultDst ∧
    minOut ≤ swapOut vaultSrc vaultDst feeNum feeDen amountIn := by
  simp only [swapSteps] at h
  simp only [run, decide_eq_true_eq] at h
  split_ifs at h with h1 h2 h3 h4 h5 h6 h7 h8 h9
  all_goals simp_all

/-- C1: on every swap call on which no arithmetic step fails and no guard
aborts, `total_amount_minted` is unchanged and the emitted transfers are
exactly `amount_in` from trader to source vault and the spec-algorithm
output (`fee = floor(amount_in * fee_numerator / fee_denominator)`,
`effective_in = amount_in - fee`, `invariant = reserve_src * reserve_dst`,
`amount_out = reserve_dst - floor(invariant / (reserve_src +
effective_in))`) from destination vault to trader. -/
theorem swap_matches_spec
    (userSrcBal vaultSrc vaultDst feeNum feeDen amountIn minOut T t : Nat)
    (is : List Instr) (hdV : vaultDst < U64)
    (h : run (swapSteps userSrcBal vaultSrc vaultDst feeNum feeDen amountIn
      minOut) T [] = (t, is, RunResult.ok)) :
    t = T ∧
    is = [Instr.transfer TransferRoute.userSrcToVaultSrc amountIn,
          Instr.transfer TransferRoute.vaultDstToUserDst
            (swapSpecAmountOut vaultSrc vaultDst feeNum feeDen amountIn)] := by
  obtain ⟨ht, his, -, -, -, -⟩ := swapSteps_ok_inversion userSrcBal vaultSrc
    vaultDst feeNum feeDen amountIn minOut T t is h
  have hle : swapOut vaultSrc vaultDst feeNum feeDen amountIn ≤ vaultDst :=
    Nat.sub_le _ _
  have hout : swapOut vaultSrc vaultDst feeNum feeDen amountIn % U64 =
      swapSpecAmountOut vaultSrc vaultDst feeNum feeDen amountIn := by
    rw [Nat.mod_eq_of_lt (lt_of_le_of_lt hle hdV)]
    rfl
  exact ⟨ht, by rw [his, hout]⟩

theorem swap_matches_spec_witness :
    (5 : Nat) = 5 ∧
    [Instr.transfer TransferRoute.userSrcToVaultSrc 100,
     Instr.transfer TransferRoute.vaultDstToUserDst 182] =
    [Instr.transfer TransferRoute.userSrcToVaultSrc 100,
     Instr.transfer TransferRoute.vaultDstToUserDst
       (swapSpecAmountOut 1000 2000 3 1000 100)] :=
  swap_matches_spec 100 1000 2000 3 1000 100 0 5 5
    [Instr.transfer TransferRoute.userSrcToVaultSrc 100,
     Instr.transfer TransferRoute.vaultDstToUserDst 182]
    (by decide) (by decide)

/-- C5 (amended): on every swap on which no arithmetic step fails, the
post-trade reserve product `(reserve_src + amount_in) * (reserve_dst -
amount_out)` is below the pre-trade product by strictly less than
`reserve_src + amount_in` — a floor-rounding loss bounded by the
post-trade source reserve, for any fee.  (Strict non-decrease for
`fee_numerator > 0`, and the 1-unit zero-fee bound, are refuted by the
counterexample.) -/
theorem swap_product_loss_bound
    (userSrcBal vaultSrc vaultDst feeNum feeDen amountIn minOut T t out :
      Nat) (hdV : vaultDst < U64)
    (h : run (swapSteps userSrcBal vaultSrc vaultDst feeNum feeDen amountIn
      minOut) T [] =
      (t, [Instr.transfer TransferRoute.userSrcToVaultSrc amountIn,
           Instr.transfer TransferRoute.vaultDstToUserDst out],
       RunResult.ok)) :
    vaultSrc * vaultDst <
      (vaultSrc + amountIn) * (vaultDst - out) + (vaultSrc + amountIn) := by
  obtain ⟨-, his, -, hpos, hle, -⟩ := swapSteps_ok_inversion userSrcBal
    vaultSrc vaultDst feeNum feeDen amountIn minOut T t _ h
  have hso : swapOut vaultSrc vaultDst feeNum feeDen amountIn ≤ vaultDst :=
    Nat.sub_le _ _
  have hout : out = swapOut vaultSrc vaultDst feeNum feeDen amountIn := by
    have h2 : out = swapOut vaultSrc vaultDst feeNum feeDen amountIn % U64 := by
      simpa using congrArg (fun l => l.getLast?) his
    rw [h2]
    exact Nat.mod_eq_of_lt (lt_of_le_of_lt hso hdV)
  have hsub : vaultDst - swapOut vaultSrc vaultDst feeNum feeDen amountIn =
      vaultSrc * vaultDst /
        (vaultSrc + (amountIn - swapFee feeNum feeDen amountIn)) := by
    unfold swapOut
    exact Nat.sub_sub_self hle
  rw [hout, hsub]
  have hmod := Nat.div_add_mod (vaultSrc * vaultDst)
    (vaultSrc + (amountIn - swapFee feeNum feeDen amountIn))
  have hlt := Nat.mod_lt (vaultSrc * vaultDst) hpos
  have hns : vaultSrc + (amountIn - swapFee feeNum feeDen amountIn) ≤
      vaultSrc + amountIn := Nat.add_le_add_left (Nat.sub_le _ _) _
  have step1 : vaultSrc * vaultDst <
      (vaultSrc + (amountIn - swapFee feeNum feeDen amountIn)) *
        (vaultSrc * vaultDst /
          (vaultSrc + (amountIn - swapFee feeNum feeDen amountIn))) +
      (vaultSrc + (amountIn - swapFee feeNum feeDen amountIn)) := by omega
  calc vaultSrc * vaultDst <
      (vaultSrc + (amountIn - swapFee feeNum feeDen amountIn)) *
        (vaultSrc * vaultDst /
          (vaultSrc + (amountIn - swapFee feeNum feeDen amountIn))) +
      (vaultSrc + (amountIn - swapFee feeNum feeDen amountIn)) := step1
  _ ≤ (vaultSrc + amountIn) *
        (vaultSrc * vaultDst /
          (vaultSrc + (amountIn - swapFee feeNum feeDen amountIn))) +
      (vaultSrc + amountIn) :=
    Nat.add_le_add (Nat.mul_le_mul_right _ hns) hns

theorem swap_product_loss_bound_witness :
    (1 : Nat) * 3 < (1 + 1) * (3 - 2) + (1 + 1) :=
  swap_product_loss_bound 1 1 3 0 1 1 0 0 0 2 (by decide) (by decide)

theorem div_le_of_le_mul {a c d : Nat} (hd : 0 < d) (h : a ≤ c * d) :
    a / d ≤ c := by
  have h2 : a / d ≤ c * d / d := Nat.div_le_div_right h
  rw [Nat.mul_comm c d] at h2
  rwa [Nat.mul_div_cancel_left c hd] at h2

/-- Burning `m` shares from the post-deposit pool `(v + d, T + m)` pays
out at most the deposit `d`, as soon as `m * v ≤ d * T`. -/
theorem withdraw_le_deposit {m v d T : Nat} (hT : 0 < T + m)
    (hkey : m * v ≤ d * T) : m * (v + d) / (T + m) ≤ d := by
  apply div_le_of_le_mul hT
  calc m * (v + d) = m * v + m * d := by ring
  _ ≤ d * T + d * m := Nat.add_le_add hkey (le_of_eq (Nat.mul_comm m d))
  _ = d * (T + m) := by ring

/-- C8: for every non-empty pool (both reserves and the share supply
positive) and every successful `add_liquidity`, immediately removing
exactly the minted shares returns `amount0_out ≤ deposit0` and
`amount1_out ≤ deposit1` (the post-add reserves are `u64` token balances,
hence the two fit-in-`u64` hypotheses). -/
theorem add_then_remove_le_deposits
    (bal0 bal1 vault0 vault1 total amount0 amount1 t : Nat) (is : List Instr)
    (hv0 : 0 < vault0) (hv1 : 0 < vault1) (ht : 0 < total)
    (hpost0 : vault0 + amount0 < U64)
    (hpost1 : vault1 + addDeposit1 vault0 vault1 amount0 amount1 < U64)
    (_hadd : run (addLiquiditySteps bal0 bal1 vault0 vault1 total amount0
      amount1) total [] = (t, is, RunResult.ok)) :
    AddThenRemoveSpec vault0 vault1 total amount0 amount1 := by
  have hne : ¬(vault0 = 0 ∧ vault1 = 0) := fun hc =>
    absurd hc.1 (Nat.pos_iff_ne_zero.mp hv0)
  have hdd : addDeposit1 vault0 vault1 amount0 amount1 =
      amount0 * (vault1 / vault0) := by simp [addDeposit1, hne]
  have hmm : addMint vault0 vault1 total amount0 amount1 =
      amount0 * (vault1 / vault0) * total / vault1 % U64 := by
    simp [addMint, addDeposit1, hne]
  have hmU : addMint vault0 vault1 total amount0 amount1 < U64 := by
    rw [hmm]; exact Nat.mod_lt _ (by norm_num [U64])
  have hkey1 : addMint vault0 vault1 total amount0 amount1 * vault1 ≤
      addDeposit1 vault0 vault1 amount0 amount1 * total := by
    rw [hmm, hdd]
    calc amount0 * (vault1 / vault0) * total / vault1 % U64 * vault1
        ≤ amount0 * (vault1 / vault0) * total / vault1 * vault1 :=
          Nat.mul_le_mul_right _ (Nat.mod_le _ _)
    _ ≤ amount0 * (vault1 / vault0) * total := Nat.div_mul_le_self _ _
  have hkey0 : addMint vault0 vault1 total amount0 amount1 * vault0 ≤
      amount0 * total := by
    have hd1v0 : addDeposit1 vault0 vault1 amount0 amount1 * vault0 ≤
        amount0 * vault1 := by
      rw [hdd]
      calc amount0 * (vault1 / vault0) * vault0
          = amount0 * (vault1 / vault0 * vault0) := by ring
      _ ≤ amount0 * vault1 :=
        Nat.mul_le_mul_left _ (Nat.div_mul_le_self _ _)
    have h3 : addMint vault0 vault1 total amount0 amount1 * vault0 * vault1 ≤
        amount0 * total * vault1 := by
      calc addMint vault0 vault1 total amount0 amount1 * vault0 * vault1
          = addMint vault0 vault1 total amount0 amount1 * vault1 * vault0 := by
            ring
      _ ≤ addDeposit1 vault0 vault1 amount0 amount1 * total * vault0 :=
        Nat.mul_le_mul_right _ hkey1
      _ = addDeposit1 vault0 vault1 amount0 amount1 * vault0 * total := by ring
      _ ≤ amount0 * vault1 * total := Nat.mul_le_mul_right _ hd1v0
      _ = amount0 * total * vault1 := by ring
    exact Nat.le_of_mul_le_mul_right h3 hv1
  unfold AddThenRemoveSpec
  have htm : 0 < total + addMint vault0 vault1 total amount0 amount1 := by
    omega
  have hrun := removeLiquidity_run_ok
    (addMint vault0 vault1 total amount0 amount1)
    (vault0 + amount0)
    (vault1 + addDeposit1 vault0 vault1 amount0 amount1)
    (total + addMint vault0 vault1 total amount0 amount1)
    (addMint vault0 vault1 total amount0 amount1)
    hpost0 hpost1 hmU htm (le_refl _) (Nat.le_add_left _ _)
  rw [Nat.add_sub_cancel] at hrun
  exact ⟨hrun, withdraw_le_deposit htm hkey0, withdraw_le_deposit htm hkey1⟩

theorem add_then_remove_le_deposits_witness :
    AddThenRemoveSpec 1000 2000 1500 100 1000 :=
  add_then_remove_le_deposits 100 1000 1000 2000 1500 100 1000 1650
    [Instr.transfer TransferRoute.user0ToVault0 100,
     Instr.transfer TransferRoute.user1ToVault1 200,
     Instr.mintTo 150]
    (by decide) (by decide) (by decide) (by decide) (by decide) (by decide)

end LiquidityPool
